import Mathlib

/-!
Shallow embedding of `osquery/filesystem/filesystem.cpp`.

The C++ code is a thin OS-abstraction layer: path checks, text file
read/write, directory listing and Tomcat `tomcat-users` XML credential
extraction.  Every operation returns a `Status` (code + message).

OS calls (open, chmod, write, read, directory iteration) and the boost
XML parser are external capabilities: their outcomes are explicit inputs
(`WriteEnv`, `ReadEnv`, `DirEnv`, `ParsedXml`), and the filesystem itself
is an explicit state (`FS`, `SysState`) threaded through the functions.
The bodies of the Lean functions mirror the C++ control flow branch by
branch.
-/

namespace Osquery

/-- Modelled from the spec: the universal result envelope `Status`
(declared in `osquery/filesystem.h`, not under `src/`): a numeric code
(0 = success, non-zero = failure) and a human-readable message;
`ok()` holds iff the code is 0. -/
structure Status where
  code : Nat
  message : String
deriving Repr, DecidableEq

/-- Modelled from the spec: `Status::ok()` is `code == 0`. -/
def Status.ok (s : Status) : Bool := s.code == 0

/-- A filesystem node: a regular file (contents and permission mode) or a
directory with a list of child entry names. -/
inductive Node where
  | file (contents : String) (mode : Nat)
  | dir (children : List String)
deriving Repr, DecidableEq

/-- The filesystem state: an association list from path strings to nodes.
The first binding for a path is the live one. -/
structure FS where
  entries : List (String × Node)
deriving Repr, DecidableEq

def FS.lookup (fs : FS) (p : String) : Option Node :=
  fs.entries.lookup p

/-- Models `boost::filesystem::exists`. -/
def fsExists (fs : FS) (p : String) : Bool :=
  (fs.lookup p).isSome

/-- Models `boost::filesystem::is_directory`. -/
def fsIsDirectory (fs : FS) (p : String) : Bool :=
  match fs.lookup p with
  | some (Node.dir _) => true
  | _ => false

/-- Bind `p` to node `n`, shadowing any previous binding. -/
def fsUpdate (fs : FS) (p : String) (n : Node) : FS :=
  ⟨(p, n) :: fs.entries⟩

/-- Split a character list on a separator; always returns at least one
(possibly empty) segment. -/
def splitOnChar (sep : Char) : List Char → List (List Char)
  | [] => [[]]
  | c :: cs =>
    let r := splitOnChar sep cs
    if c = sep then [] :: r
    else
      match r with
      | [] => [[c]]
      | h :: t => (c :: h) :: t

/-- Join character-list segments with a slash. -/
def joinWithSlash : List (List Char) → List Char
  | [] => []
  | [x] => x
  | x :: xs => x ++ '/' :: joinWithSlash xs

/-- Models `boost::filesystem::path(path).parent_path().string()`:
the path with its last slash-separated component removed. -/
def parentPath (path : String) : String :=
  String.mk (joinWithSlash (splitOnChar '/' path.data).dropLast)

/-- `pathExists` from filesystem.cpp: empty path gives `Status(1, "-1")`,
an absent path `Status(1, "0")`, a present path `Status(0, "1")`. -/
def pathExists (fs : FS) (path : String) : Status :=
  if path.length = 0 then ⟨1, "-1"⟩
  else if !(fsExists fs path) then ⟨1, "0"⟩
  else ⟨0, "1"⟩

/-- `isDirectory` from filesystem.cpp. -/
def isDirectory (fs : FS) (path : String) : Status :=
  if fsIsDirectory fs path then ⟨0, "OK"⟩
  else ⟨1, "Path is not a directory"⟩

/-- `getDirectory` from filesystem.cpp: returns the status together with
the value assigned to the `dirpath` out-parameter. -/
def getDirectory (fs : FS) (path : String) : Status × String :=
  if !(isDirectory fs path).ok then (⟨0, "OK"⟩, parentPath path)
  else (⟨1, "Path is a directory"⟩, path)

theorem string_eq_empty_of_length_eq_zero {s : String} (h : s.length = 0) :
    s = "" := by
  cases s with
  | mk data =>
    cases data with
    | nil => rfl
    | cons a l => simp [String.length] at h

theorem lookup_fsUpdate (fs : FS) (p : String) (n : Node) :
    (fsUpdate fs p n).lookup p = some n := by
  simp [fsUpdate, FS.lookup, List.lookup]

theorem lookup_eq_none_of_not_exists {fs : FS} {p : String}
    (h : fsExists fs p = false) : fs.lookup p = none := by
  unfold fsExists at h
  cases hl : fs.lookup p <;> simp [hl] at h ⊢

/-- Claim C2: `pathExists` implements the exact tri-state encoding: empty
path fails with code 1 and message "-1"; a non-empty absent path fails
with code 1 and message "0"; a non-empty present path succeeds with
code 0 and message "1". -/
theorem c2_theorem (fs : FS) (path : String) :
    (path = "" → pathExists fs path = ⟨1, "-1"⟩) ∧
    (path ≠ "" → fsExists fs path = false → pathExists fs path = ⟨1, "0"⟩) ∧
    (path ≠ "" → fsExists fs path = true → pathExists fs path = ⟨0, "1"⟩) := by
  refine ⟨fun h => by simp [pathExists, h], fun h hex => ?_, fun h hex => ?_⟩
  · have hlen : path.length ≠ 0 := fun hl => h (string_eq_empty_of_length_eq_zero hl)
    simp [pathExists, hlen, hex]
  · have hlen : path.length ≠ 0 := fun hl => h (string_eq_empty_of_length_eq_zero hl)
    simp [pathExists, hlen, hex]

/-- Witness for C2 at concrete inputs: the empty path, a missing path on
the empty filesystem, and a present path. -/
theorem c2_witness :
    pathExists ⟨[]⟩ "" = ⟨1, "-1"⟩ ∧
    pathExists ⟨[]⟩ "/definitely/missing" = ⟨1, "0"⟩ ∧
    pathExists ⟨[("/tmp/x", Node.file "hi" 420)]⟩ "/tmp/x" = ⟨0, "1"⟩ :=
  ⟨(c2_theorem ⟨[]⟩ "").1 rfl,
   (c2_theorem ⟨[]⟩ "/definitely/missing").2.1 (by decide) (by decide),
   (c2_theorem ⟨[("/tmp/x", Node.file "hi" 420)]⟩ "/tmp/x").2.2 (by decide)
     (by decide)⟩

/-- Claim C5: `getDirectory` couples output assignment to both branches:
on a non-directory it succeeds (code 0, "OK") and assigns `dirpath` the
parent path; on a directory it fails (code 1) yet still assigns `dirpath`
the path itself. -/
theorem c5_theorem (fs : FS) (path : String) :
    (fsIsDirectory fs path = false →
      getDirectory fs path = (⟨0, "OK"⟩, parentPath path)) ∧
    (fsIsDirectory fs path = true →
      getDirectory fs path = (⟨1, "Path is a directory"⟩, path)) := by
  constructor <;> intro h <;> simp [getDirectory, isDirectory, Status.ok, h]

/-- Witness for C5 at concrete inputs: a regular file and a directory. -/
theorem c5_witness :
    getDirectory ⟨[("/a/b", Node.file "x" 420)]⟩ "/a/b" = (⟨0, "OK"⟩, "/a") ∧
    getDirectory ⟨[("/a", Node.dir ["b"])]⟩ "/a" =
      (⟨1, "Path is a directory"⟩, "/a") :=
  ⟨by rw [(c5_theorem ⟨[("/a/b", Node.file "x" 420)]⟩ "/a/b").1 (by decide)]
      decide,
   (c5_theorem ⟨[("/a", Node.dir ["b"])]⟩ "/a").2 (by decide)⟩

/-- The first `n` characters of `s` (models writing `n` bytes of a
buffer). -/
def strTake (s : String) (n : Nat) : String :=
  String.mk (s.data.take n)

/-- System state threaded through FileIO: the filesystem plus the set of
currently open file descriptors (`nextFd` is the next fresh descriptor,
kept positive so the C++ `fd <= 0` test means open failure). -/
structure SysState where
  fs : FS
  openFds : List Nat
  nextFd : Nat
deriving Repr, DecidableEq

/-- Outcomes of the OS calls made by `writeTextFile`, given as input:
whether `open` fails, whether `chmod` fails, and how many bytes the
`write` call reports (none = the full content length). -/
structure WriteEnv where
  openFails : Bool
  chmodFails : Bool
  writeBytes : Option Nat
deriving Repr, DecidableEq

/-- Models `open(path, O_CREAT | O_APPEND | O_WRONLY, permissions)`:
on success returns the fresh descriptor and records it open, creating an
empty file when the path is absent; fails on a directory or when the
environment says so. -/
def openAppendWronly (env : WriteEnv) (st : SysState) (path : String)
    (permissions : Nat) : Option (Nat × SysState) :=
  if env.openFails then none
  else
    match st.fs.lookup path with
    | some (Node.dir _) => none
    | some (Node.file _ _) =>
      some (st.nextFd,
        { st with openFds := st.nextFd :: st.openFds, nextFd := st.nextFd + 1 })
    | none =>
      some (st.nextFd,
        { fs := fsUpdate st.fs path (Node.file "" permissions),
          openFds := st.nextFd :: st.openFds,
          nextFd := st.nextFd + 1 })

/-- Models `close(fd)`. -/
def closeFd (st : SysState) (fd : Nat) : SysState :=
  { st with openFds := st.openFds.erase fd }

/-- Models a successful `chmod(path, permissions)` on a regular file. -/
def fsChmod (fs : FS) (path : String) (permissions : Nat) : FS :=
  match fs.lookup path with
  | some (Node.file c _) => fsUpdate fs path (Node.file c permissions)
  | _ => fs

/-- Append `data` to the contents of the regular file at `path`
(the descriptor was opened with `O_APPEND`). -/
def fsAppend (fs : FS) (path : String) (data : String) : FS :=
  match fs.lookup path with
  | some (Node.file c m) => fsUpdate fs path (Node.file (c ++ data) m)
  | _ => fs

set_option linter.unusedVariables false in
/-- `writeTextFile` from filesystem.cpp, branch by branch: open (create
failure), chmod (note: the C++ returns from this branch WITHOUT closing
`output_fd`), write of `content` with the reported byte count compared
against `content.size()`, close on the short-write and success paths.
The `force_permissions` parameter is accepted but never read, exactly as
in the C++. -/
def writeTextFile (env : WriteEnv) (st : SysState) (path content : String)
    (permissions : Nat) (force_permissions : Bool) : Status × SysState :=
  match openAppendWronly env st path permissions with
  | none => (⟨1, "Could not create file"⟩, st)
  | some (fd, st1) =>
    if env.chmodFails then (⟨1, "Failed to change permissions"⟩, st1)
    else
      let st2 : SysState := { st1 with fs := fsChmod st1.fs path permissions }
      let bytes : Nat :=
        match env.writeBytes with
        | none => content.length
        | some n => min n content.length
      let st3 : SysState := { st2 with fs := fsAppend st2.fs path (strTake content bytes) }
      if bytes ≠ content.length then
        (⟨1, "Failed to write contents"⟩, closeFd st3 fd)
      else (⟨0, "OK"⟩, closeFd st3 fd)

/-- Outcomes of the OS calls made by `readFile`: whether the `ifstream`
open fails and whether the buffer read falls short. -/
structure ReadEnv where
  openFails : Bool
  readFails : Bool
deriving Repr, DecidableEq

/-- `readFile` from filesystem.cpp: `pathExists` pre-check propagated
unchanged, then open, then a full-length read into a buffer; `content` is
assigned only on the full-success path. -/
def readFile (env : ReadEnv) (fs : FS) (path : String) (content : String) :
    Status × String :=
  let path_e := pathExists fs path
  if !path_e.ok then (path_e, content)
  else
    match fs.lookup path with
    | some (Node.file data _) =>
      if env.openFails then (⟨1, "Could not open file for reading"⟩, content)
      else if env.readFails then (⟨1, "Could not read file"⟩, content)
      else (⟨0, "OK"⟩, data)
    | _ => (⟨1, "Could not open file for reading"⟩, content)

/-- Claim C3 (evaluating the code at the failing input): when open
succeeds (descriptor 1 acquired) and chmod fails, `writeTextFile` returns
the "Failed to change permissions" failure with descriptor 1 still
recorded open — the chmod-failure exit path leaks the descriptor instead
of releasing it. -/
theorem c3_theorem :
    (writeTextFile ⟨false, true, none⟩ ⟨⟨[]⟩, [], 1⟩ "/tmp/f" "hello" 416 true).1
      = ⟨1, "Failed to change permissions"⟩ ∧
    (writeTextFile ⟨false, true, none⟩ ⟨⟨[]⟩, [], 1⟩ "/tmp/f" "hello" 416 true).2.openFds
      = [1] := by
  decide

/-- Claim C4: `writeTextFile` never reads its `force_permissions`
argument, so two runs differing only in that flag return the same status
and leave the identical system state. -/
theorem c4_theorem (env : WriteEnv) (st : SysState) (path content : String)
    (permissions : Nat) :
    writeTextFile env st path content permissions true =
      writeTextFile env st path content permissions false := rfl

/-- Claim C9: whenever `readFile` returns a failure status (empty path,
absent path, open failure or short read), the `content` out-parameter is
returned exactly as it was passed in. -/
theorem c9_theorem (env : ReadEnv) (fs : FS) (path content : String)
    (h : (readFile env fs path content).1.code ≠ 0) :
    (readFile env fs path content).2 = content := by
  by_cases hpe : (pathExists fs path).ok
  · cases hl : fs.lookup path with
    | none => simp [readFile, hpe, hl]
    | some node =>
      cases node with
      | dir children => simp [readFile, hpe, hl]
      | file data m =>
        cases ho : env.openFails with
        | true => simp [readFile, hpe, hl, ho]
        | false =>
          cases hr : env.readFails with
          | true => simp [readFile, hpe, hl, ho, hr]
          | false =>
            exfalso
            simp [readFile, hpe, hl, ho, hr] at h
  · simp [readFile, hpe]

/-- Witness for C9 at a concrete input: a short read on an existing file
leaves the previously held content "orig" untouched. -/
theorem c9_witness :
    (readFile ⟨false, true⟩ ⟨[("/tmp/x", Node.file "data" 420)]⟩ "/tmp/x" "orig").2
      = "orig" :=
  c9_theorem ⟨false, true⟩ ⟨[("/tmp/x", Node.file "data" 420)]⟩ "/tmp/x" "orig"
    (by decide)

/-- Outcome of the OS directory iteration, given as input: `none` means
the iteration yields every entry without fault; `some (k, msg)` means a
`filesystem_error` with description `msg` is thrown after `k` entries
have been yielded (effective only when more than `k` entries exist). -/
structure DirEnv where
  iterFailAfter : Option (Nat × String)
deriving Repr, DecidableEq

/-- Models `(begin_iter->path()).string()`: the directory path joined
with the entry name. -/
def joinPath (dir entry : String) : String := dir ++ "/" ++ entry

/-- `listFilesInDirectory` from filesystem.cpp: existence check, then
directory check, then iteration pushing each child's full path onto
`results`; a thrown `filesystem_error` is caught and converted into a
failure status carrying its description, keeping whatever was already
pushed. -/
def listFilesInDirectory (env : DirEnv) (fs : FS) (path : String)
    (results : List String) : Status × List String :=
  if !(fsExists fs path) then (⟨1, "Directory not found"⟩, results)
  else
    match fs.lookup path with
    | some (Node.dir children) =>
      match env.iterFailAfter with
      | none => (⟨0, "OK"⟩, results ++ children.map (joinPath path))
      | some (k, msg) =>
        if k < children.length then
          (⟨1, msg⟩, results ++ (children.take k).map (joinPath path))
        else (⟨0, "OK"⟩, results ++ children.map (joinPath path))
    | _ => (⟨1, "Supplied path is not a directory"⟩, results)

/-- Claim C8: `listFilesInDirectory` fails with "Directory not found"
when the path does not exist, fails with "Supplied path is not a
directory" when it exists but is not a directory, and on a directory
(with a fault-free iteration) succeeds, appending the full path of every
direct child to `results`. -/
theorem c8_theorem (env : DirEnv) (fs : FS) (path : String)
    (results : List String) :
    (fsExists fs path = false →
      listFilesInDirectory env fs path results =
        (⟨1, "Directory not found"⟩, results)) ∧
    (fsExists fs path = true → fsIsDirectory fs path = false →
      listFilesInDirectory env fs path results =
        (⟨1, "Supplied path is not a directory"⟩, results)) ∧
    (∀ children, fs.lookup path = some (Node.dir children) →
      env.iterFailAfter = none →
      listFilesInDirectory env fs path results =
        (⟨0, "OK"⟩, results ++ children.map (joinPath path))) := by
  refine ⟨fun h => by simp [listFilesInDirectory, h],
    fun hex hdir => ?_, fun children hl hiter => ?_⟩
  · cases hl : fs.lookup path with
    | none => simp [fsExists, hl] at hex
    | some node =>
      cases node with
      | file data m => simp [listFilesInDirectory, fsExists, hl]
      | dir cs => simp [fsIsDirectory, hl] at hdir
  · have hex : fsExists fs path = true := by simp [fsExists, hl]
    simp [listFilesInDirectory, hex, hl, hiter]

/-- Witness for C8 at concrete inputs: a missing path, a regular file,
and a directory with three entries. -/
theorem c8_witness :
    listFilesInDirectory ⟨none⟩ ⟨[]⟩ "/d" [] =
      (⟨1, "Directory not found"⟩, []) ∧
    listFilesInDirectory ⟨none⟩ ⟨[("/d", Node.file "x" 420)]⟩ "/d" [] =
      (⟨1, "Supplied path is not a directory"⟩, []) ∧
    listFilesInDirectory ⟨none⟩ ⟨[("/d", Node.dir ["a", "b", "c"])]⟩ "/d" [] =
      (⟨0, "OK"⟩, ["/d/a", "/d/b", "/d/c"]) :=
  ⟨(c8_theorem ⟨none⟩ ⟨[]⟩ "/d" []).1 (by decide),
   (c8_theorem ⟨none⟩ ⟨[("/d", Node.file "x" 420)]⟩ "/d" []).2.1 (by decide)
     (by decide),
   by
    rw [(c8_theorem ⟨none⟩ ⟨[("/d", Node.dir ["a", "b", "c"])]⟩ "/d" []).2.2
      ["a", "b", "c"] (by decide) rfl]
    decide⟩

/-- Claim C10: `listFilesInDirectory` only appends to `results`: the
prior elements survive as a prefix on every outcome, and when a
filesystem error hits after `k` entries of a directory iteration, the
call fails with the error's message while the `k` already-enumerated
full paths stay appended. -/
theorem c10_theorem (env : DirEnv) (fs : FS) (path : String)
    (results : List String) :
    (∃ t, (listFilesInDirectory env fs path results).2 = results ++ t) ∧
    (∀ k msg children, env.iterFailAfter = some (k, msg) →
      fs.lookup path = some (Node.dir children) → k < children.length →
      listFilesInDirectory env fs path results =
        (⟨1, msg⟩, results ++ (children.take k).map (joinPath path))) := by
  constructor
  · by_cases hex : fsExists fs path
    · cases hl : fs.lookup path with
      | none => exact ⟨[], by simp [listFilesInDirectory, hex, hl]⟩
      | some node =>
        cases node with
        | file data m => exact ⟨[], by simp [listFilesInDirectory, hex, hl]⟩
        | dir children =>
          cases hiter : env.iterFailAfter with
          | none =>
            exact ⟨children.map (joinPath path),
              by simp [listFilesInDirectory, hex, hl, hiter]⟩
          | some p =>
            by_cases hk : p.1 < children.length
            · exact ⟨(children.take p.1).map (joinPath path),
                by simp [listFilesInDirectory, hex, hl, hiter, hk]⟩
            · exact ⟨children.map (joinPath path),
                by simp [listFilesInDirectory, hex, hl, hiter, hk]⟩
    · exact ⟨[], by simp [listFilesInDirectory,
        Bool.of_not_eq_true hex]⟩
  · intro k msg children hiter hl hk
    have hex : fsExists fs path = true := by simp [fsExists, hl]
    simp [listFilesInDirectory, hex, hl, hiter, hk]

/-- Witness for C10 at a concrete input: prior results are preserved and
an iteration fault after two of three entries keeps the two enumerated
paths. -/
theorem c10_witness :
    (∃ t, (listFilesInDirectory ⟨some (2, "boom")⟩
      ⟨[("/d", Node.dir ["a", "b", "c"])]⟩ "/d" ["old"]).2 = ["old"] ++ t) ∧
    listFilesInDirectory ⟨some (2, "boom")⟩
      ⟨[("/d", Node.dir ["a", "b", "c"])]⟩ "/d" ["old"] =
      (⟨1, "boom"⟩, ["old"] ++ (["a", "b", "c"].take 2).map (joinPath "/d")) :=
  ⟨(c10_theorem ⟨some (2, "boom")⟩ ⟨[("/d", Node.dir ["a", "b", "c"])]⟩ "/d"
      ["old"]).1,
   (c10_theorem ⟨some (2, "boom")⟩ ⟨[("/d", Node.dir ["a", "b", "c"])]⟩ "/d"
      ["old"]).2 2 "boom" ["a", "b", "c"] rfl (by decide) (by decide)⟩

/-- An OS environment in which open, chmod and write all behave: open
succeeds and write reports the full content length. -/
def benignWriteEnv : WriteEnv := ⟨false, false, none⟩

/-- An OS environment in which the read-side open and read behave. -/
def benignReadEnv : ReadEnv := ⟨false, false⟩

theorem strTake_length (s : String) : strTake s s.length = s := by
  cases s with
  | mk data => simp [strTake, String.length]

theorem writeTextFile_benign_fresh (st : SysState) (path content : String)
    (permissions : Nat) (h : st.fs.lookup path = none) :
    (writeTextFile benignWriteEnv st path content permissions true).1
      = ⟨0, "OK"⟩ ∧
    (writeTextFile benignWriteEnv st path content permissions true).2.fs.lookup
      path = some (Node.file content permissions) := by
  simp [writeTextFile, openAppendWronly, benignWriteEnv, h, fsChmod,
    fsAppend, closeFd, lookup_fsUpdate, strTake_length, String.empty_append]

theorem writeTextFile_benign_existing (st : SysState) (path content : String)
    (permissions : Nat) (c : String) (m : Nat)
    (h : st.fs.lookup path = some (Node.file c m)) :
    (writeTextFile benignWriteEnv st path content permissions true).1
      = ⟨0, "OK"⟩ ∧
    (writeTextFile benignWriteEnv st path content permissions true).2.fs.lookup
      path = some (Node.file (c ++ content) permissions) := by
  simp [writeTextFile, openAppendWronly, benignWriteEnv, h, fsChmod,
    fsAppend, closeFd, lookup_fsUpdate, strTake_length]

theorem readFile_benign_of_file {fs : FS} {path data : String} {m : Nat}
    (hpath : path ≠ "") (h : fs.lookup path = some (Node.file data m))
    (content : String) :
    readFile benignReadEnv fs path content = (⟨0, "OK"⟩, data) := by
  have hlen : path.length ≠ 0 :=
    fun hl => hpath (string_eq_empty_of_length_eq_zero hl)
  have hex : fsExists fs path = true := by simp [fsExists, h]
  simp [readFile, benignReadEnv, pathExists, hlen, hex, h, Status.ok]

/-- Claim C6: on a fresh path with a benign OS, `writeTextFile` succeeds
and a subsequent `readFile` succeeds and yields exactly the written
content (write/read round-trip). -/
theorem c6_theorem (st : SysState) (path content : String)
    (permissions : Nat) (hpath : path ≠ "")
    (hfresh : fsExists st.fs path = false) :
    (writeTextFile benignWriteEnv st path content permissions true).1
      = ⟨0, "OK"⟩ ∧
    readFile benignReadEnv
      (writeTextFile benignWriteEnv st path content permissions true).2.fs
      path "" = (⟨0, "OK"⟩, content) := by
  have hnone := lookup_eq_none_of_not_exists hfresh
  have hw := writeTextFile_benign_fresh st path content permissions hnone
  exact ⟨hw.1, readFile_benign_of_file hpath hw.2 ""⟩

/-- Witness for C6 at a concrete input: writing "hello" to the fresh path
"/tmp/out" and reading it back yields "hello". -/
theorem c6_witness :
    (writeTextFile benignWriteEnv ⟨⟨[]⟩, [], 1⟩ "/tmp/out" "hello" 420 true).1
      = ⟨0, "OK"⟩ ∧
    readFile benignReadEnv
      (writeTextFile benignWriteEnv ⟨⟨[]⟩, [], 1⟩ "/tmp/out" "hello" 420
        true).2.fs "/tmp/out" "" = (⟨0, "OK"⟩, "hello") :=
  c6_theorem ⟨⟨[]⟩, [], 1⟩ "/tmp/out" "hello" 420 (by decide) (by decide)

/-- Claim C7: on a fresh path with a benign OS, two sequential
`writeTextFile` calls with contents `c1` then `c2` both succeed and a
subsequent read yields `c1 ++ c2`: the append-mode open accumulates
content rather than truncating. -/
theorem c7_theorem (st : SysState) (path c1 c2 : String) (permissions : Nat)
    (hpath : path ≠ "") (hfresh : fsExists st.fs path = false) :
    (writeTextFile benignWriteEnv st path c1 permissions true).1
      = ⟨0, "OK"⟩ ∧
    (writeTextFile benignWriteEnv
      (writeTextFile benignWriteEnv st path c1 permissions true).2 path c2
      permissions true).1 = ⟨0, "OK"⟩ ∧
    readFile benignReadEnv
      (writeTextFile benignWriteEnv
        (writeTextFile benignWriteEnv st path c1 permissions true).2 path c2
        permissions true).2.fs path "" = (⟨0, "OK"⟩, c1 ++ c2) := by
  have hnone := lookup_eq_none_of_not_exists hfresh
  have hw1 := writeTextFile_benign_fresh st path c1 permissions hnone
  have hw2 := writeTextFile_benign_existing
    (writeTextFile benignWriteEnv st path c1 permissions true).2 path c2
    permissions c1 permissions hw1.2
  exact ⟨hw1.1, hw2.1, readFile_benign_of_file hpath hw2.2 ""⟩

/-- Witness for C7 at a concrete input: writing "foo" then "bar" to the
fresh path "/tmp/out2" and reading back yields "foobar". -/
theorem c7_witness :
    (writeTextFile benignWriteEnv ⟨⟨[]⟩, [], 1⟩ "/tmp/out2" "foo" 420 true).1
      = ⟨0, "OK"⟩ ∧
    (writeTextFile benignWriteEnv
      (writeTextFile benignWriteEnv ⟨⟨[]⟩, [], 1⟩ "/tmp/out2" "foo" 420
        true).2 "/tmp/out2" "bar" 420 true).1 = ⟨0, "OK"⟩ ∧
    readFile benignReadEnv
      (writeTextFile benignWriteEnv
        (writeTextFile benignWriteEnv ⟨⟨[]⟩, [], 1⟩ "/tmp/out2" "foo" 420
          true).2 "/tmp/out2" "bar" 420 true).2.fs "/tmp/out2" ""
      = (⟨0, "OK"⟩, "foobar") :=
  c7_theorem ⟨⟨[]⟩, [], 1⟩ "/tmp/out2" "foo" "bar" 420 (by decide) (by decide)

/-- A `<user>`-level view of the boost property tree: the element's
`<xmlattr>.username` and `<xmlattr>.password` attributes, `none` when the
attribute is absent (so `ptree::get` throws). -/
structure XmlUser where
  username : Option String
  password : Option String
deriving Repr, DecidableEq

/-- Outcome of `read_xml` plus `tree.get_child("tomcat-users")`, given as
input (the boost XML parser is an external capability): a parse error, a
missing `tomcat-users` child, or the ordered child list of the
`tomcat-users` node as (tag, attributes) pairs. -/
inductive ParsedXml where
  | parseError (msg : String)
  | missingTomcatUsers (msg : String)
  | tomcatUsers (children : List (String × XmlUser))
deriving Repr, DecidableEq

/-- The `what()` text of the `ptree_bad_path` thrown by
`get<std::string>("<xmlattr>.attr")` on a missing attribute. -/
def attrError (attr : String) : String :=
  "No such node (<xmlattr>." ++ attr ++ ")"

/-- The loop body of `parseTomcatUserConfig`: for each child tagged
`user`, read `username` then `password` (a missing one throws, is caught,
and the whole call returns failure immediately), else push the pair onto
`credentials` and continue. -/
def extractUsers : List (String × XmlUser) → List (String × String) →
    Status × List (String × String)
  | [], credentials => (⟨0, "OK"⟩, credentials)
  | (tag, u) :: rest, credentials =>
    if tag = "user" then
      match u.username with
      | none => (⟨1, attrError "username"⟩, credentials)
      | some un =>
        match u.password with
        | none => (⟨1, attrError "password"⟩, credentials)
        | some pw => extractUsers rest (credentials ++ [(un, pw)])
    else extractUsers rest credentials

/-- `parseTomcatUserConfig` from filesystem.cpp, with the XML parse
outcome of its `content` argument supplied explicitly: parser errors and
a missing `tomcat-users` key fail with the exception text; otherwise the
child list is folded by `extractUsers` into the `credentials`
out-parameter. -/
def parseTomcatUserConfig (parsed : ParsedXml)
    (credentials : List (String × String)) :
    Status × List (String × String) :=
  match parsed with
  | .parseError msg => (⟨1, msg⟩, credentials)
  | .missingTomcatUsers msg => (⟨1, msg⟩, credentials)
  | .tomcatUsers children => extractUsers children credentials

/-- The credential a well-formed `user` child contributes, `none` for
other tags or defective attributes. -/
def goodCred : String × XmlUser → Option (String × String)
  | (tag, u) =>
    if tag = "user" then
      match u.username, u.password with
      | some a, some b => some (a, b)
      | _, _ => none
    else none

/-- Counterexample to claim C1 as stated: on a document whose first
`user` element is well-formed ("alice") and whose second lacks a
`password`, `parseTomcatUserConfig` does fail, but the output credential
sequence is NOT empty — it still holds the entry for "alice". -/
theorem c1_counterexample :
    (parseTomcatUserConfig (ParsedXml.tomcatUsers
      [("user", ⟨some "alice", some "secret1"⟩),
       ("user", ⟨some "bob", none⟩)]) []).1.code = 1 ∧
    (parseTomcatUserConfig (ParsedXml.tomcatUsers
      [("user", ⟨some "alice", some "secret1"⟩),
       ("user", ⟨some "bob", none⟩)]) []).2 ≠ [] := by
  decide

/-- Claim C1 as amended: when the `tomcat-users` child list is a prefix
of well-formed children, then a `user` element missing `username` or
`password`, then anything, `parseTomcatUserConfig` fails (code 1) and
stops at the defective element — but the credentials of the well-formed
`user` elements of the prefix remain appended to the output sequence
(the defective element itself contributes nothing). -/
theorem c1_theorem (pre rest : List (String × XmlUser)) (d : XmlUser)
    (creds : List (String × String))
    (hpre : ∀ x ∈ pre, x.1 = "user" →
      x.2.username ≠ none ∧ x.2.password ≠ none)
    (hd : d.username = none ∨ d.password = none) :
    (parseTomcatUserConfig
      (ParsedXml.tomcatUsers (pre ++ ("user", d) :: rest)) creds).1.code = 1 ∧
    (parseTomcatUserConfig
      (ParsedXml.tomcatUsers (pre ++ ("user", d) :: rest)) creds).2 =
      creds ++ pre.filterMap goodCred := by
  unfold parseTomcatUserConfig
  induction pre generalizing creds with
  | nil =>
    cases hu : d.username with
    | none => simp [extractUsers, hu]
    | some un =>
      cases hp : d.password with
      | none => simp [extractUsers, hu, hp]
      | some pw =>
        exfalso
        rcases hd with h | h
        · rw [hu] at h; exact Option.noConfusion h
        · rw [hp] at h; exact Option.noConfusion h
  | cons x pre' ih =>
    obtain ⟨tag, u⟩ := x
    by_cases htag : tag = "user"
    · have hwf := hpre (tag, u) (by simp) htag
      cases hu : u.username with
      | none => exact absurd hu hwf.1
      | some a =>
        cases hp : u.password with
        | none => exact absurd hp hwf.2
        | some b =>
          have ih' := ih (creds ++ [(a, b)]) (fun y hy hty =>
            hpre y (List.mem_cons_of_mem _ hy) hty)
          refine ⟨?_, ?_⟩
          · simpa [extractUsers, htag, hu, hp] using ih'.1
          · rw [List.cons_append]
            simp only [extractUsers, htag, if_true, hu, hp]
            rw [ih'.2]
            simp [goodCred, htag, hu, hp]
    · have ih' := ih creds (fun y hy hty =>
        hpre y (List.mem_cons_of_mem _ hy) hty)
      refine ⟨?_, ?_⟩
      · simpa [extractUsers, htag] using ih'.1
      · rw [List.cons_append]
        simp only [extractUsers, htag, if_false]
        rw [ih'.2]
        simp [goodCred, htag]

/-- Witness for the amended C1 at a concrete input: a well-formed
"alice" entry followed by a "bob" entry missing `password` fails with
code 1 while alice's credential stays in the output. -/
theorem c1_witness :
    (parseTomcatUserConfig (ParsedXml.tomcatUsers
      ([("user", ⟨some "alice", some "secret1"⟩)] ++
        ("user", ⟨some "bob", none⟩) :: [])) []).1.code = 1 ∧
    (parseTomcatUserConfig (ParsedXml.tomcatUsers
      ([("user", ⟨some "alice", some "secret1"⟩)] ++
        ("user", ⟨some "bob", none⟩) :: [])) []).2 =
      [] ++ [("user", (⟨some "alice", some "secret1"⟩ : XmlUser))].filterMap
        goodCred :=
  c1_theorem [("user", ⟨some "alice", some "secret1"⟩)] []
    ⟨some "bob", none⟩ [] (by decide) (Or.inr rfl)

end Osquery
